import Mathlib

/-!
Verification development for fastpm-python, file src/fastpm/perturbation.py.

The module is embedded shallowly over the real numbers. Python float
arithmetic becomes exact real arithmetic; numpy elementwise functions become
their real counterparts (numpy.sqrt is Real.sqrt, numpy.log is Real.log,
numpy.exp is Real.exp). The call scipy.integrate.odeint is an external
numerical integrator, so the trajectory it returns is kept as an abstract
field of the model; everything the module computes from that trajectory
(table assembly, normalization, interpolation, derived quantities) is
embedded faithfully from the source.
-/

namespace FastPM

noncomputable section

/-- Cosmological parameters consumed by PerturbationGrowth.__init__:
cosmo.Om0, cosmo.Ok0, cosmo.Ode0. -/
structure Cosmology where
  Om0 : ℝ
  Ok0 : ℝ
  Ode0 : ℝ

/-- Number of grid points: 1024*10 in the source. -/
def gridN : ℕ := 1024 * 10

/-- Index of the last grid point. -/
def lastIdx : ℕ := gridN - 1

/-- numpy.linspace(-7, 0, gridN) entry i, the exponent grid underlying
numpy.logspace(-7, 0, gridN, endpoint=True). -/
def linspaceGrid (i : ℕ) : ℝ := -7 + 7 * (i : ℝ) / ((gridN : ℝ) - 1)

/-- self.lna = numpy.log(numpy.logspace(-7, 0, 1024*10, endpoint=True)):
the natural log of 10 raised to the linspace exponent. -/
def lnaGrid (i : ℕ) : ℝ := Real.log ((10 : ℝ) ^ (linspaceGrid i))

/-- efunc(a) = sqrt(a ** -3 * Om0 + Ok0 * a ** -2 + Ode0). -/
def efunc (c : Cosmology) (a : ℝ) : ℝ :=
  Real.sqrt (a ^ (-3 : ℤ) * c.Om0 + c.Ok0 * a ^ (-2 : ℤ) + c.Ode0)

/-- efunc_prime(a) = 0.5 / efunc(a) * (-3 * a**-4 * Om0 + -2 * Ok0 * a**-3),
the analytic dE/da. -/
def efunc_prime (c : Cosmology) (a : ℝ) : ℝ :=
  0.5 / efunc c a * (-3 * a ^ (-4 : ℤ) * c.Om0 + -2 * c.Ok0 * a ^ (-3 : ℤ))

/-- E(a, order): order 0 gives efunc(a); any other order gives
efunc_prime(a) * a. The source tests `if order == 0` and treats every other
order alike in the else branch. -/
def E (c : Cosmology) (a : ℝ) (order : ℤ) : ℝ :=
  if order = 0 then efunc c a else efunc_prime c a * a

/-- Hfac(a) = -2. - E(a, order=1) / E(a). -/
def Hfac (c : Cosmology) (a : ℝ) : ℝ :=
  -2 - E c a 1 / E c a 0

/-- Om(a) = Om0 * a ** -3 / E(a) ** 2. -/
def Om (c : Cosmology) (a : ℝ) : ℝ :=
  c.Om0 * a ^ (-3 : ℤ) / E c a 0 ^ 2

/-- ode(y, lna): unpacks y = (D1, F1, D2, F2), sets a = exp(lna),
hfac = Hfac(a), omega = Om(a), and returns (D1p, F1p, D2p, F2p). A pure
function of its arguments and the model parameters. -/
def ode (c : Cosmology) (y : ℝ × ℝ × ℝ × ℝ) (lna : ℝ) : ℝ × ℝ × ℝ × ℝ :=
  let D1 := y.1
  let F1 := y.2.1
  let D2 := y.2.2.1
  let F2 := y.2.2.2
  let a := Real.exp lna
  let hfac := Hfac c a
  let omega := Om c a
  let F1p := hfac * F1 + 1.5 * omega * D1
  let D1p := F1
  let F2p := hfac * F2 + 1.5 * omega * D2 - 1.5 * omega * D1 ^ 2
  let D2p := D1
  (D1p, F1p, D2p, F2p)

/-- a0 = numpy.exp(self.lna[0]) in _solve. -/
def a0 : ℝ := Real.exp (lnaGrid 0)

/-- y0 = [a0, a0, -3./7 * a0**2, -6./7 * a0**2] in _solve. -/
def y0 : ℝ × ℝ × ℝ × ℝ :=
  (a0, a0, -3 / 7 * a0 ^ 2, -6 / 7 * a0 ^ 2)

/-- Three-entry table row, indexed by the column order 0..2. -/
def row3 (x y z : ℝ) : Fin 3 → ℝ :=
  fun j => if j = 0 then x else if j = 1 then y else z

/-- Row i of the raw v1 table in _solve: (D1, F1, F1p) where
(D1p, F1p, D2p, F2p) = ode(y[i], lna[i]). -/
def v1raw (c : Cosmology) (ysol : ℕ → ℝ × ℝ × ℝ × ℝ) (i : ℕ) : Fin 3 → ℝ :=
  row3 (ysol i).1 (ysol i).2.1 (ode c (ysol i) (lnaGrid i)).2.1

/-- Row i of the raw v2 table in _solve: (D2, F2, F2p). -/
def v2raw (c : Cosmology) (ysol : ℕ → ℝ × ℝ × ℝ × ℝ) (i : ℕ) : Fin 3 → ℝ :=
  row3 (ysol i).2.2.1 (ysol i).2.2.2 (ode c (ysol i) (lnaGrid i)).2.2.2

/-- _solve, after the odeint call: assemble v1, v2 and normalize in place,
v1 /= v1[-1][0] and v2 /= v2[-1][0]. The argument ysol stands for the
trajectory odeint returned. -/
def solveTables (c : Cosmology) (ysol : ℕ → ℝ × ℝ × ℝ × ℝ) :
    (ℕ → Fin 3 → ℝ) × (ℕ → Fin 3 → ℝ) :=
  (fun i j => v1raw c ysol i j / v1raw c ysol lastIdx 0,
   fun i j => v2raw c ysol i j / v2raw c ysol lastIdx 0)

/-- The PerturbationGrowth object after __init__: the cosmological
parameters together with the odeint trajectory the solve step consumed. -/
structure PerturbationGrowth where
  cosmo : Cosmology
  ysol : ℕ → ℝ × ℝ × ℝ × ℝ

/-- self._D1, the normalized first table returned by _solve. -/
def tbl1 (m : PerturbationGrowth) : ℕ → Fin 3 → ℝ :=
  (solveTables m.cosmo m.ysol).1

/-- self._D2, the normalized second table returned by _solve. -/
def tbl2 (m : PerturbationGrowth) : ℕ → Fin 3 → ℝ :=
  (solveTables m.cosmo m.ysol).2

/-- Interior of numpy.interp: scan the segments [xp k, xp (k+1)] from the
right and blend linearly inside the first segment whose left node is at or
below x. -/
def interpSeg (x : ℝ) (xp fp : ℕ → ℝ) : ℕ → ℝ
  | 0 => fp 0
  | k + 1 =>
    if xp k ≤ x then
      fp k + (fp (k + 1) - fp k) * (x - xp k) / (xp (k + 1) - xp k)
    else interpSeg x xp fp k

/-- numpy.interp(x, xp, fp) over the nodes xp 0 .. xp n: below the first
node it returns fp 0, beyond the last node it returns fp n, and in between
it interpolates linearly; this is the documented clamping behavior of
numpy.interp on a monotone grid. -/
def interp (x : ℝ) (xp fp : ℕ → ℝ) (n : ℕ) : ℝ :=
  if x ≤ xp 0 then fp 0
  else if xp n ≤ x then fp n
  else interpSeg x xp fp n

/-- D1(a, order) = numpy.interp(log(a), self.lna, self._D1[:, order]). -/
def D1 (m : PerturbationGrowth) (a : ℝ) (order : Fin 3) : ℝ :=
  interp (Real.log a) lnaGrid (fun i => tbl1 m i order) lastIdx

/-- D2(a, order) = numpy.interp(log(a), self.lna, self._D2[:, order]). -/
def D2 (m : PerturbationGrowth) (a : ℝ) (order : Fin 3) : ℝ :=
  interp (Real.log a) lnaGrid (fun i => tbl2 m i order) lastIdx

/-- f1(a) = D1(a, order=1) / D1(a, order=0). -/
def f1 (m : PerturbationGrowth) (a : ℝ) : ℝ :=
  D1 m a 1 / D1 m a 0

/-- f2(a) = D2(a, order=1) / D2(a, order=0). -/
def f2 (m : PerturbationGrowth) (a : ℝ) : ℝ :=
  D2 m a 1 / D2 m a 0

/-- Gp(a) = D1(a). -/
def Gp (m : PerturbationGrowth) (a : ℝ) : ℝ :=
  D1 m a 0

/-- gp(a) = D1(a, order=1) / a. -/
def gp (m : PerturbationGrowth) (a : ℝ) : ℝ :=
  D1 m a 1 / a

/-- Gf(a) = D1(a, 1) * a ** 2 * E(a). -/
def Gf (m : PerturbationGrowth) (a : ℝ) : ℝ :=
  D1 m a 1 * a ^ 2 * E m.cosmo a 0

/-- gf(a) = 1 / a * (D1(a,2) * a**2 * E(a)
  + D1(a,1) * (a**2 * E(a, order=1) + 2 * a**2 * E(a))). -/
def gf (m : PerturbationGrowth) (a : ℝ) : ℝ :=
  1 / a * (D1 m a 2 * a ^ 2 * E m.cosmo a 0
    + D1 m a 1 * (a ^ 2 * E m.cosmo a 1 + 2 * a ^ 2 * E m.cosmo a 0))

/-- Variant of efunc that records the domain behavior of numpy.sqrt: on a
negative radicand numpy.sqrt returns NaN, a propagated domain error, which
the Option embedding renders as none. -/
def efuncChecked (c : Cosmology) (a : ℝ) : Option ℝ :=
  if a ^ (-3 : ℤ) * c.Om0 + c.Ok0 * a ^ (-2 : ℤ) + c.Ode0 < 0 then none
  else some (Real.sqrt (a ^ (-3 : ℤ) * c.Om0 + c.Ok0 * a ^ (-2 : ℤ) + c.Ode0))

/-! Basic facts about the log scale factor grid. -/

lemma log10_pos : 0 < Real.log 10 :=
  Real.log_pos (by norm_num)

lemma lnaGrid_eq (i : ℕ) : lnaGrid i = linspaceGrid i * Real.log 10 := by
  unfold lnaGrid
  rw [Real.log_rpow (by norm_num)]

lemma linspaceGrid_zero : linspaceGrid 0 = -7 := by
  norm_num [linspaceGrid]

lemma linspaceGrid_last : linspaceGrid lastIdx = 0 := by
  norm_num [linspaceGrid, lastIdx, gridN]

lemma lnaGrid_zero : lnaGrid 0 = -7 * Real.log 10 := by
  rw [lnaGrid_eq, linspaceGrid_zero]

lemma lnaGrid_last : lnaGrid lastIdx = 0 := by
  rw [lnaGrid_eq, linspaceGrid_last, zero_mul]

lemma lnaGrid_zero_neg : lnaGrid 0 < 0 := by
  rw [lnaGrid_zero]
  nlinarith [log10_pos]

lemma lnaGrid_ge (i : ℕ) : lnaGrid 0 ≤ lnaGrid i := by
  rw [lnaGrid_eq, lnaGrid_eq]
  have h1 : linspaceGrid 0 ≤ linspaceGrid i := by
    unfold linspaceGrid
    have : (0 : ℝ) ≤ 7 * (i : ℝ) / ((gridN : ℝ) - 1) := by
      apply div_nonneg
      · positivity
      · norm_num [gridN]
    simp only [Nat.cast_zero, mul_zero, zero_div]
    linarith
  exact mul_le_mul_of_nonneg_right h1 (le_of_lt log10_pos)

lemma log_1e7 : Real.log (1e-7 : ℝ) = lnaGrid 0 := by
  have h : (1e-7 : ℝ) = ((10 : ℝ) ^ (7 : ℕ))⁻¹ := by norm_num
  rw [h, Real.log_inv, Real.log_pow, lnaGrid_zero]
  push_cast
  ring

lemma log_1e10_le : Real.log (1e-10 : ℝ) ≤ lnaGrid 0 := by
  have h : (1e-10 : ℝ) = ((10 : ℝ) ^ (10 : ℕ))⁻¹ := by norm_num
  rw [h, Real.log_inv, Real.log_pow, lnaGrid_zero]
  have := log10_pos
  push_cast
  nlinarith

lemma interp_below {x : ℝ} {xp fp : ℕ → ℝ} {n : ℕ} (h : x ≤ xp 0) :
    interp x xp fp n = fp 0 := by
  unfold interp
  rw [if_pos h]

lemma interp_above {x : ℝ} {xp fp : ℕ → ℝ} {n : ℕ} (h0 : xp 0 < x) (h : xp n ≤ x) :
    interp x xp fp n = fp n := by
  unfold interp
  rw [if_neg (not_le.mpr h0), if_pos h]

/-! Concrete instances used by the witness theorems. -/

/-- Concrete cosmology used to instantiate hypotheses at a definite input. -/
def cW : Cosmology := ⟨3 / 10, 0, 7 / 10⟩

/-- Concrete stand-in for the integrator trajectory. -/
def ysW : ℕ → ℝ × ℝ × ℝ × ℝ := fun _ => (1, 1, 1, 1)

/-- Concrete model instance built from cW and ysW. -/
def mW : PerturbationGrowth := ⟨cW, ysW⟩

/-- Cosmology whose efunc radicand is negative at a = 1. -/
def cBad : Cosmology := ⟨-1, 0, 0⟩

/-! Claims. -/

/-- Claim C1: after construction both solution tables are normalized by the
per-table final D value: the zeroth column at the last grid point (a = 1)
equals exactly 1 for both tables, every entry is the raw solved value
divided by that per-table constant, and consequently the queries
D1(a=1, order=0) and D2(a=1, order=0) both return 1. -/
theorem c1_normalization (c : Cosmology) (ysol : ℕ → ℝ × ℝ × ℝ × ℝ)
    (h1 : v1raw c ysol lastIdx 0 ≠ 0) (h2 : v2raw c ysol lastIdx 0 ≠ 0) :
    (solveTables c ysol).1 lastIdx 0 = 1 ∧
    (solveTables c ysol).2 lastIdx 0 = 1 ∧
    (∀ i j, (solveTables c ysol).1 i j = v1raw c ysol i j / v1raw c ysol lastIdx 0) ∧
    (∀ i j, (solveTables c ysol).2 i j = v2raw c ysol i j / v2raw c ysol lastIdx 0) ∧
    D1 ⟨c, ysol⟩ 1 0 = 1 ∧ D2 ⟨c, ysol⟩ 1 0 = 1 := by
  have ht1 : (solveTables c ysol).1 lastIdx 0 = 1 := div_self h1
  have ht2 : (solveTables c ysol).2 lastIdx 0 = 1 := div_self h2
  have hlast : lnaGrid lastIdx ≤ Real.log 1 := by
    rw [Real.log_one, lnaGrid_last]
  have hfirst : lnaGrid 0 < Real.log 1 := by
    rw [Real.log_one]
    exact lnaGrid_zero_neg
  refine ⟨ht1, ht2, fun i j => rfl, fun i j => rfl, ?_, ?_⟩
  · unfold D1
    rw [interp_above hfirst hlast]
    exact ht1
  · unfold D2
    rw [interp_above hfirst hlast]
    exact ht2

/-- Claim C1 witness: the normalization theorem applied to a concrete
cosmology and trajectory. -/
theorem c1_normalization_witness :
    v1raw cW ysW lastIdx 0 ≠ 0 ∧ (solveTables cW ysW).1 lastIdx 0 = 1 := by
  have h1 : v1raw cW ysW lastIdx 0 = 1 := by
    simp [v1raw, row3, ysW]
  have h2 : v2raw cW ysW lastIdx 0 = 1 := by
    simp [v2raw, row3, ysW]
  refine ⟨by rw [h1]; norm_num, ?_⟩
  exact (c1_normalization cW ysW (by rw [h1]; norm_num) (by rw [h2]; norm_num)).1

/-- Claim C2: the ODE right-hand side returns exactly the 4-tuple
(F1, hfac F1 + 1.5 omega D1, D1, hfac F2 + 1.5 omega D2 - 1.5 omega D1^2)
with a = exp(lna), hfac = Hfac(a) = -2 - E(a,1)/E(a,0) and
omega = Om(a) = Om0 a^-3 / E(a,0)^2; it is a pure function of (y, lna) and
the parameters, so no side effects arise. -/
theorem c2_ode (c : Cosmology) (y : ℝ × ℝ × ℝ × ℝ) (lna : ℝ) :
    ode c y lna =
      (y.2.1,
        Hfac c (Real.exp lna) * y.2.1 + 1.5 * Om c (Real.exp lna) * y.1,
        y.1,
        Hfac c (Real.exp lna) * y.2.2.2 + 1.5 * Om c (Real.exp lna) * y.2.2.1
          - 1.5 * Om c (Real.exp lna) * y.1 ^ 2) ∧
    Hfac c (Real.exp lna) = -2 - E c (Real.exp lna) 1 / E c (Real.exp lna) 0 ∧
    Om c (Real.exp lna) = c.Om0 * (Real.exp lna) ^ (-3 : ℤ) / E c (Real.exp lna) 0 ^ 2 :=
  ⟨rfl, rfl, rfl⟩

/-- Claim C3: the growth solver starts from the first grid point with
initial condition y0 = (a0, a0, -3/7 a0^2, -6/7 a0^2), where
a0 = exp(lna[0]) equals exactly 1e-7 in the real embedding and is the
smallest grid value. -/
theorem c3_initial_condition :
    y0 = (a0, a0, -3 / 7 * a0 ^ 2, -6 / 7 * a0 ^ 2) ∧
    a0 = Real.exp (lnaGrid 0) ∧
    a0 = 1e-7 ∧
    ∀ i : ℕ, lnaGrid 0 ≤ lnaGrid i := by
  refine ⟨rfl, rfl, ?_, lnaGrid_ge⟩
  unfold a0
  rw [lnaGrid_zero]
  have h : Real.exp (-7 * Real.log 10) = (10 : ℝ) ^ (-7 : ℝ) := by
    rw [Real.rpow_def_of_pos (by norm_num)]
    ring_nf
  rw [h, show ((-7 : ℝ)) = ((-7 : ℤ) : ℝ) by norm_num, Real.rpow_intCast]
  norm_num

/-- Claim C4: queries below the grid clamp to the first table entry and
queries above the grid clamp to the last table entry, for every column
order and for both D1 and D2; in particular D1(1e-10, 0) = D1(1e-7, 0).
The query functions are total, so no error is raised out of range. -/
theorem c4_clamp (m : PerturbationGrowth) (a : ℝ) (order : Fin 3) :
    (Real.log a ≤ lnaGrid 0 →
      D1 m a order = tbl1 m 0 order ∧ D2 m a order = tbl2 m 0 order) ∧
    (lnaGrid lastIdx ≤ Real.log a →
      D1 m a order = tbl1 m lastIdx order ∧ D2 m a order = tbl2 m lastIdx order) ∧
    D1 m 1e-10 0 = D1 m 1e-7 0 := by
  have hlt : lnaGrid 0 < lnaGrid lastIdx := by
    rw [lnaGrid_last]
    exact lnaGrid_zero_neg
  refine ⟨fun h => ⟨?_, ?_⟩, fun h => ⟨?_, ?_⟩, ?_⟩
  · unfold D1
    rw [interp_below h]
  · unfold D2
    rw [interp_below h]
  · unfold D1
    rw [interp_above (lt_of_lt_of_le hlt h) h]
  · unfold D2
    rw [interp_above (lt_of_lt_of_le hlt h) h]
  · unfold D1
    rw [interp_below log_1e10_le, interp_below (le_of_eq log_1e7)]

/-- Claim C4 witness: the clamp theorem applied at the concrete below-grid
query a = 1e-10 on a concrete model. -/
theorem c4_clamp_witness :
    Real.log (1e-10 : ℝ) ≤ lnaGrid 0 ∧ D1 mW 1e-10 0 = tbl1 mW 0 0 :=
  ⟨log_1e10_le, ((c4_clamp mW 1e-10 0).1 log_1e10_le).1⟩

/-- Claim C6: the background model satisfies
efunc(a) = sqrt(Om0 a^-3 + Ok0 a^-2 + Ode0), E(a,0) = efunc(a),
E(a,1) = efunc_prime(a) a with
efunc_prime(a) = 1/(2 efunc(a)) (-3 Om0 a^-4 - 2 Ok0 a^-3), and a negative
radicand is a propagated domain error (none in the Option embedding of the
NaN produced by numpy.sqrt), never a clamped value. -/
theorem c6_background (c : Cosmology) (a : ℝ) (ha : 0 < a) :
    efunc c a = Real.sqrt (c.Om0 * a ^ (-3 : ℤ) + c.Ok0 * a ^ (-2 : ℤ) + c.Ode0) ∧
    E c a 0 = efunc c a ∧
    E c a 1 = efunc_prime c a * a ∧
    efunc_prime c a
      = 1 / (2 * efunc c a) * (-3 * c.Om0 * a ^ (-4 : ℤ) - 2 * c.Ok0 * a ^ (-3 : ℤ)) ∧
    (a ^ (-3 : ℤ) * c.Om0 + c.Ok0 * a ^ (-2 : ℤ) + c.Ode0 < 0 →
      efuncChecked c a = none) := by
  refine ⟨?_, rfl, ?_, ?_, fun h => ?_⟩
  · unfold efunc
    congr 1
    ring
  · unfold E
    rw [if_neg (by norm_num)]
  · unfold efunc_prime
    rw [one_div, mul_inv]
    ring
  · unfold efuncChecked
    rw [if_pos h]

/-- Claim C6 witness: the background theorem applied to a cosmology whose
radicand is negative at a = 1, showing the domain error is propagated. -/
theorem c6_background_witness :
    (1 : ℝ) ^ (-3 : ℤ) * cBad.Om0 + cBad.Ok0 * (1 : ℝ) ^ (-2 : ℤ) + cBad.Ode0 < 0 ∧
    efuncChecked cBad 1 = none := by
  have h : (1 : ℝ) ^ (-3 : ℤ) * cBad.Om0 + cBad.Ok0 * (1 : ℝ) ^ (-2 : ℤ) + cBad.Ode0 < 0 := by
    norm_num [cBad]
  exact ⟨h, (c6_background cBad 1 (by norm_num)).2.2.2.2 h⟩

/-- Claim C7: gf(a) is exactly the product-rule expression
1/a (D1(a,2) a^2 E(a,0) + D1(a,1) (a^2 E(a,1) + 2 a^2 E(a,0))) built from
D1(a,2), D1(a,1), E(a,0), E(a,1), and that expression is the exact analytic
a-derivative of Gf(a) = D1(a,1) a^2 E(a,0): any differentiable functions p
and q passing through D1(a,1) and E(a,0) with derivatives D1(a,2)/a and
E(a,1)/a make t mapsto p t * t^2 * q t differentiate to gf(a) at a. -/
theorem c7_gf (m : PerturbationGrowth) (a : ℝ) (ha : 0 < a) :
    Gf m a = D1 m a 1 * a ^ 2 * E m.cosmo a 0 ∧
    gf m a = 1 / a * (D1 m a 2 * a ^ 2 * E m.cosmo a 0
      + D1 m a 1 * (a ^ 2 * E m.cosmo a 1 + 2 * a ^ 2 * E m.cosmo a 0)) ∧
    ∀ p q : ℝ → ℝ,
      HasDerivAt p (D1 m a 2 / a) a → HasDerivAt q (E m.cosmo a 1 / a) a →
      p a = D1 m a 1 → q a = E m.cosmo a 0 →
      HasDerivAt (fun t => p t * t ^ 2 * q t) (gf m a) a := by
  have ha' : a ≠ 0 := ne_of_gt ha
  refine ⟨rfl, rfl, fun p q hp hq hpa hqa => ?_⟩
  have h2 : HasDerivAt (fun t : ℝ => t ^ 2) (2 * a) a := by
    simpa using hasDerivAt_pow 2 a
  have h3 := (hp.mul h2).mul hq
  have key : (D1 m a 2 / a * a ^ 2 + p a * (2 * a)) * q a + p a * a ^ 2 * (E m.cosmo a 1 / a)
      = gf m a := by
    rw [hpa, hqa]
    unfold gf
    field_simp
    ring
  rw [key] at h3
  exact h3

/-- Claim C7 witness: the gf product-rule identity evaluated at a = 1 on a
concrete model. -/
theorem c7_gf_witness :
    (0 : ℝ) < 1 ∧ gf mW 1 = 1 / 1 * (D1 mW 1 2 * 1 ^ 2 * E mW.cosmo 1 0
      + D1 mW 1 1 * (1 ^ 2 * E mW.cosmo 1 1 + 2 * 1 ^ 2 * E mW.cosmo 1 0)) :=
  ⟨by norm_num, (c7_gf mW 1 (by norm_num)).2.1⟩

/-- Claim C8: f1(a) and f2(a) are exactly the quotients
D1(a,1)/D1(a,0) and D2(a,1)/D2(a,0) of the same interpolation lookups, so
the round trip is exact by construction. -/
theorem c8_f1_f2 (m : PerturbationGrowth) (a : ℝ) :
    f1 m a = D1 m a 1 / D1 m a 0 ∧ f2 m a = D2 m a 1 / D2 m a 0 :=
  ⟨rfl, rfl⟩

/-- Claim C10: for every order other than 0, including 2 and negative
values, E(a, order) returns efunc_prime(a) * a, the same value as E(a, 1):
the order argument is only tested against zero and no genuine second
derivative is computed. -/
theorem c10_E_nonzero_order (c : Cosmology) (a : ℝ) (order : ℤ) (h : order ≠ 0) :
    E c a order = efunc_prime c a * a ∧ E c a order = E c a 1 := by
  constructor
  · unfold E
    rw [if_neg h]
  · unfold E
    rw [if_neg h, if_neg (by norm_num)]

/-- Claim C10 witness: E with order 2 agrees with E at order 1 on a
concrete cosmology and scale factor. -/
theorem c10_E_nonzero_order_witness :
    (2 : ℤ) ≠ 0 ∧ E cW 5 2 = efunc_prime cW 5 * 5 ∧ E cW 5 2 = E cW 5 1 := by
  refine ⟨by norm_num, ?_, ?_⟩
  · exact (c10_E_nonzero_order cW 5 2 (by norm_num)).1
  · exact (c10_E_nonzero_order cW 5 2 (by norm_num)).2

end

end FastPM
